import Mathlib

/-!
Verification of the trex-controller repository: a shallow embedding of the
workload data model (`main.go`), the validator (`trex_config.go:LoadConfig`),
the TRex port-configuration builder (`trex_config.go:createVFConfigFile`),
the random-IP generator (`trex_config.go:generateRandomIP`), the netlink
plumbing helpers (`network.go` and its successor revision), and the
reconciler's apply/compensate/delete state machine (`main.go`).

Go machine integers are modelled as `Int`/`Nat` (no operation here can
overflow: indices, lengths and prefix sizes are tiny), Go byte arithmetic is
modelled with explicit `% 256`, fallible Go functions return `Except String`,
and external effects (the container engine, netlink syscalls, sysfs reads,
the time-seeded PRNG) are passed in as explicit outcome parameters so every
definition stays executable.
-/

namespace Trex

/-! ## Data model (`main.go`) -/

structure Port where
  ifName : String
  vfIndex : Int
  ip : String
  gateway : String
  vlanId : Int
  deriving DecidableEq, Repr

structure Metadata where
  name : String
  image : String
  deriving DecidableEq, Repr

structure Spec where
  brName : String
  mgmtIP : String
  mgmtGateway : String
  networkType : String
  parentInterface : String
  port : List Port
  deriving DecidableEq, Repr

structure TRExConfig where
  kind : String
  metadata : Metadata
  spec : Spec
  deriving DecidableEq, Repr

/-- `true` on the success branch of an `Except`. -/
def okB {α : Type} : Except String α → Bool
  | .ok _ => true
  | .error _ => false

/-! ## Validator (`trex_config.go:LoadConfig`)

The Go function takes `*TRExConfig` and mutates it in place; the embedding
returns the updated value.  The Go-side `trexConfig == nil` guard has no
counterpart for a by-value embedding. -/

def brNameDefault : String := "trex-br0"

def LoadConfig (c : TRExConfig) : Except String TRExConfig :=
  if c.metadata.name = "" then
    .error "trexConfig.Metadata.Name is empty, please configure trexConfig.Metadata.Name"
  else if c.metadata.image = "" then
    .error "trexConfig.Metadata.Image is empty, please configure trexConfig.Metadata.Image"
  else if c.spec.mgmtIP = "" then
    .error "trexConfig.Spec.MgmtIP is empty, please configure trexConfig.Spec.MgmtIP"
  else if c.spec.mgmtGateway = "" then
    .error "trexConfig.Spec.MgmtGateway is empty, please configure trexConfig.Spec.MgmtGateway"
  else if c.spec.port.length = 0 then
    .error "trexConfig.Spec.Port is empty, please configure trexConfig.Spec.Port"
  else
    let c1 := if c.spec.networkType = "" then
      { c with spec := { c.spec with networkType := "SRIOV" } } else c
    let c2 := if c1.spec.brName = "" then
      { c1 with spec := { c1.spec with brName := brNameDefault } } else c1
    .ok c2

/-- C8: validation fails exactly when a required field is missing, and on
success only the two defaulted fields can change. -/
theorem LoadConfig_spec (c : TRExConfig) :
    (okB (LoadConfig c) = false ↔
      (c.metadata.name = "" ∨ c.metadata.image = "" ∨ c.spec.mgmtIP = "" ∨
        c.spec.mgmtGateway = "" ∨ c.spec.port = [])) ∧
    (∀ c2, LoadConfig c = .ok c2 →
      c2 = { c with spec := { c.spec with
          networkType := if c.spec.networkType = "" then "SRIOV" else c.spec.networkType,
          brName := if c.spec.brName = "" then brNameDefault else c.spec.brName } }) := by
  obtain ⟨k, ⟨mn, mi⟩, ⟨bn, mip, mgw, nt, pif, pts⟩⟩ := c
  constructor
  · unfold LoadConfig
    split_ifs <;> simp_all [okB, List.length_eq_zero]
  · intro c2 h
    unfold LoadConfig at h
    split_ifs at h <;> simp_all <;> cases h <;> split_ifs <;> rfl

/-- A minimal submitted config: empty `networkType` and `brName`, everything
required present. -/
def cfgMinimal : TRExConfig :=
  { kind := "TrexConfig",
    metadata := { name := "t1", image := "trex:v3" },
    spec := { brName := "", mgmtIP := "10.0.0.5/24", mgmtGateway := "10.0.0.1",
              networkType := "", parentInterface := "eno1",
              port := [{ ifName := "", vfIndex := 0, ip := "", gateway := "", vlanId := 100 }] } }

/-- `cfgMinimal` after validation: only the two defaults are filled in. -/
def cfgMinimalLoaded : TRExConfig :=
  { cfgMinimal with spec := { cfgMinimal.spec with networkType := "SRIOV", brName := brNameDefault } }

/-- Witness: a concrete accepted config gets exactly the two defaults filled. -/
theorem LoadConfig_spec_witness :
    cfgMinimalLoaded = { cfgMinimal with spec := { cfgMinimal.spec with
        networkType := if cfgMinimal.spec.networkType = "" then "SRIOV" else cfgMinimal.spec.networkType,
        brName := if cfgMinimal.spec.brName = "" then brNameDefault else cfgMinimal.spec.brName } } :=
  (LoadConfig_spec cfgMinimal).2 cfgMinimalLoaded rfl

/-! ## Veth pair naming (`getPairName`, current revision)

The current revision truncates the workload name only when it is longer than
10 bytes, and then keeps 9 bytes.  `pauseID` is accepted but unused.  The same
function is called on the apply path (`configurePauseContainerNetwork`), the
compensation path (`cleanupOnError`) and the delete path
(`deleteTRExContainer`).  Go slices bytes; names here are ASCII so
`String.take` (characters) coincides. -/

def getPairName (name pauseID : String) : String × String :=
  let n := if name.length > 10 then name.take 9 else name
  ("trex_" ++ n, "tmp" ++ n)

/-- C3 counterexample: `"abcdefghij"` (10 bytes) and `"abcdefghijk"` (11
bytes) agree on their first 9 bytes, yet the 10-byte name is not truncated at
all, so the two host veth names differ — and the first one's suffix has 10
bytes, not at most 9. -/
theorem getPairName_not_nine_byte_counterexample :
    ("abcdefghij" : String).take 9 = ("abcdefghijk" : String).take 9 ∧
    (getPairName "abcdefghij" "p1").1 ≠ (getPairName "abcdefghijk" "p2").1 ∧
    (getPairName "abcdefghij" "p1").1 = "trex_abcdefghij" := by decide

/-- C3 amended: the host veth name is `"trex_"` followed by the name truncated
to 9 bytes only when the name exceeds 10 bytes (a 10-byte name is kept
whole); it is a pure function of the workload name (the `pauseID` argument is
ignored, so apply, compensation and delete compute the same name); and two
names agreeing on their first 9 bytes collide whenever both are longer than
10 bytes. -/
theorem getPairName_amended :
    (∀ name pauseID, (getPairName name pauseID).1 =
        "trex_" ++ (if name.length > 10 then name.take 9 else name)) ∧
    (∀ name p q, getPairName name p = getPairName name q) ∧
    (∀ n1 n2 p, 10 < n1.length → 10 < n2.length → n1.take 9 = n2.take 9 →
        (getPairName n1 p).1 = (getPairName n2 p).1) := by
  refine ⟨fun name pauseID => rfl, fun name p q => rfl, fun n1 n2 p h1 h2 h9 => ?_⟩
  simp [getPairName, h1, h2, h9]

/-- Witness for the amended C3 statement at two concrete 11/12-byte names. -/
theorem getPairName_amended_witness :
    (getPairName "abcdefghijk" "p1").1 = (getPairName "abcdefghi99" "p1").1 :=
  getPairName_amended.2.2 "abcdefghijk" "abcdefghi99" "p1" (by decide) (by decide) (by decide)

/-! ## Kernel link model and `EnsureBridge`

A small model of the netlink surface `EnsureBridge` touches: the kernel owns
a list of named links, `LinkAdd` fails with `EEXIST` when the name is taken,
`LinkByName` finds the link, and `LinkSetUp` succeeds on any existing link.
`EnsureBridge` treats `EEXIST` from `LinkAdd` as success, re-fetches the link
with `bridgeByName` (which rejects a non-bridge squatter), and brings it up. -/

inductive LinkKind where
  | bridge
  | veth
  | device
  | otherKind
  deriving DecidableEq, Repr

structure Netlink where
  links : List (String × LinkKind)
  deriving DecidableEq, Repr

def linkByName (k : Netlink) (n : String) : Option LinkKind :=
  (k.links.find? (fun e => e.1 = n)).map (·.2)

/-- `LinkAdd`: `true` in the second component means `EEXIST`. -/
def linkAdd (k : Netlink) (n : String) (kind : LinkKind) : Netlink × Bool :=
  match linkByName k n with
  | some _ => (k, true)
  | none => ({ links := k.links ++ [(n, kind)] }, false)

structure BridgeHandle where
  name : String
  deriving DecidableEq, Repr

def bridgeByName (k : Netlink) (n : String) : Except String BridgeHandle :=
  match linkByName k n with
  | none => .error ("could not lookup " ++ n)
  | some .bridge => .ok { name := n }
  | some _ => .error (n ++ " already exists but is not a bridge")

/-- `LinkSetUp` succeeds exactly on existing links. -/
def linkSetUp (k : Netlink) (n : String) : Bool :=
  (linkByName k n).isSome

/-- `EnsureBridge(brName, mtu, promiscMode, vlanFiltering)`: the mtu and the
two flags shape only the requested link attributes (promisc handling is
commented out in the source), not which link exists, so the kernel model
keeps name and kind. -/
def EnsureBridge (k : Netlink) (brName : String) (mtu : Int)
    (promiscMode vlanFiltering : Bool) : Netlink × Except String BridgeHandle :=
  let added := linkAdd k brName .bridge
  -- err != nil && err != EEXIST never holds in the model: LinkAdd only EEXISTs
  match bridgeByName added.1 brName with
  | .error e => (added.1, .error e)
  | .ok h =>
    if linkSetUp added.1 brName then (added.1, .ok h)
    else (added.1, .error "could not set link up")

/-- C7: (a) when a bridge of that name already exists, `EnsureBridge`
succeeds without touching the kernel state and returns the existing bridge's
handle; (b) when a non-bridge link squats the name, it fails with the
"already exists but is not a bridge" error; (c) after any success, calling it
again returns the same state and the same handle — so it never fails after
the first success. -/
theorem EnsureBridge_idempotent (mtu : Int) (pm vf : Bool) :
    (∀ k n, linkByName k n = some .bridge →
      EnsureBridge k n mtu pm vf = (k, .ok { name := n })) ∧
    (∀ k n kind, linkByName k n = some kind → kind ≠ .bridge →
      (EnsureBridge k n mtu pm vf).2 = .error (n ++ " already exists but is not a bridge")) ∧
    (∀ k k2 n h, EnsureBridge k n mtu pm vf = (k2, .ok h) →
      EnsureBridge k2 n mtu pm vf = (k2, .ok h)) := by
  have hbr : ∀ k n, linkByName k n = some .bridge →
      EnsureBridge k n mtu pm vf = (k, .ok { name := n }) := by
    intro k n h
    simp [EnsureBridge, linkAdd, bridgeByName, linkSetUp, h]
  refine ⟨hbr, ?_, ?_⟩
  · intro k n kind h hk
    cases kind <;> simp [EnsureBridge, linkAdd, bridgeByName, linkSetUp, h] <;> simp_all
  · intro k k2 n h hrun
    unfold EnsureBridge at hrun
    rcases hadd : linkByName k n with _ | kind
    · -- fresh add: the new state holds the bridge at name n
      have hfnone : k.links.find? (fun e => e.1 = n) = none := by
        rcases hf : k.links.find? (fun e => e.1 = n) with _ | e
        · exact hf
        · exfalso; simp [linkByName, hf] at hadd
      have hfind : linkByName { links := k.links ++ [(n, .bridge)] } n = some .bridge := by
        simp [linkByName, List.find?_append, hfnone]
      simp only [linkAdd, hadd] at hrun
      simp [bridgeByName, hfind, linkSetUp] at hrun
      obtain ⟨hk2, hh2⟩ := hrun
      subst hk2
      subst hh2
      exact hbr _ _ hfind
    · -- name taken: EEXIST path, state unchanged
      simp only [linkAdd, hadd] at hrun
      cases kind
      · simp [bridgeByName, hadd, linkSetUp] at hrun
        obtain ⟨hk2, hh2⟩ := hrun
        subst hk2
        subst hh2
        exact hbr _ _ hadd
      all_goals simp [bridgeByName, hadd] at hrun

/-- Witness for C7 at a concrete kernel state holding the bridge, and the
squatter error at a state holding a plain device of the same name. -/
theorem EnsureBridge_idempotent_witness :
    EnsureBridge { links := [("trex-br0", .bridge)] } "trex-br0" 1500 false false =
      ({ links := [("trex-br0", .bridge)] }, .ok { name := "trex-br0" }) ∧
    (EnsureBridge { links := [("trex-br0", .device)] } "trex-br0" 1500 false false).2 =
      .error ("trex-br0" ++ " already exists but is not a bridge") :=
  ⟨(EnsureBridge_idempotent 1500 false false).1 _ _ (by decide),
   (EnsureBridge_idempotent 1500 false false).2.1 _ _ .device (by decide) (by decide)⟩

/-! ## Management-interface setup inside the pause netns
(`configurePauseContainerNetwork`, the closure passed to `WithNetNSPath`)

Each netlink call's outcome is an explicit parameter.  The route-add step
distinguishes the kernel errors the source names: `EEXIST` passes the
`err != EEXIST` guard, `ENETUNREACH` is demoted to a logged warning and the
action returns `nil`, anything else fails the action. -/

inductive RouteAddOutcome where
  | ok
  | eexist
  | enetunreach
  | otherErr (msg : String)
  deriving DecidableEq, Repr

structure NsEnv where
  setNameOk : Bool
  findMgmtOk : Bool
  setUpOk : Bool
  addrValid : Bool
  addrAddOk : Bool
  routeAddRes : RouteAddOutcome
  deriving DecidableEq, Repr

/-- The body of the `ns.WithNetNSPath` closure: rename the peer to `mgmt`,
bring it up, assign the (possibly `/32`-padded) management IP, then install
the default route with the relaxed error policy. -/
def nsConfigAction (e : NsEnv) : Except String Unit :=
  if e.setNameOk = false then .error "failed to rename container veth"
  else if e.findMgmtOk = false then .error "failed to find mgmt"
  else if e.setUpOk = false then .error "failed to set mgmt up"
  else if e.addrValid = false then .error "failed to parse IP address"
  else if e.addrAddOk = false then .error "failed to add IP address"
  else
    match e.routeAddRes with
    | .ok => .ok ()
    | .eexist => .ok ()
    | .enetunreach => .ok ()  -- logged as a warning, then return nil
    | .otherErr m => .error ("failed to add default route: " ++ m)

/-- C6: with the earlier steps of the netns action succeeding, an `EEXIST`
from the default-route install is success, an `ENETUNREACH` is success (only
a warning is logged), and any other route error fails the action. -/
theorem nsConfigAction_route_policy (e : NsEnv)
    (h1 : e.setNameOk = true) (h2 : e.findMgmtOk = true) (h3 : e.setUpOk = true)
    (h4 : e.addrValid = true) (h5 : e.addrAddOk = true) :
    (e.routeAddRes = .eexist → nsConfigAction e = .ok ()) ∧
    (e.routeAddRes = .enetunreach → nsConfigAction e = .ok ()) ∧
    (∀ m, e.routeAddRes = .otherErr m →
      nsConfigAction e = .error ("failed to add default route: " ++ m)) := by
  refine ⟨fun hr => ?_, fun hr => ?_, fun m hr => ?_⟩ <;>
    simp [nsConfigAction, h1, h2, h3, h4, h5, hr]

/-- Witness for C6 at concrete environments (EEXIST and ENETUNREACH succeed,
a plain error fails). -/
theorem nsConfigAction_route_policy_witness :
    nsConfigAction { setNameOk := true, findMgmtOk := true, setUpOk := true,
                     addrValid := true, addrAddOk := true, routeAddRes := .eexist } = .ok () ∧
    nsConfigAction { setNameOk := true, findMgmtOk := true, setUpOk := true,
                     addrValid := true, addrAddOk := true, routeAddRes := .enetunreach } = .ok () ∧
    nsConfigAction { setNameOk := true, findMgmtOk := true, setUpOk := true,
                     addrValid := true, addrAddOk := true, routeAddRes := .otherErr "EPERM" } =
      .error ("failed to add default route: " ++ "EPERM") :=
  ⟨(nsConfigAction_route_policy _ rfl rfl rfl rfl rfl).1 rfl,
   (nsConfigAction_route_policy _ rfl rfl rfl rfl rfl).2.1 rfl,
   (nsConfigAction_route_policy _ rfl rfl rfl rfl rfl).2.2 "EPERM" rfl⟩

/-! ## Sysfs PCI resolution (`findVFPciAddress` / `extractPCIAddress` /
`extractPCIFromUevent`, current revision)

The filesystem is an explicit parameter: whether `/sys/class/net/<vfName>`
exists, what the `device` symlink resolves to, and the lines of the device's
`uevent` file (`none` models an open error). -/

/-- Structural model of `strings.Split` for a single-character separator
(the library functions on `String` use well-founded recursion and do not
evaluate inside the kernel, so the path work runs on `List Char`). -/
def splitOnChar (sep : Char) : List Char → List (List Char)
  | [] => [[]]
  | a :: as =>
    let r := splitOnChar sep as
    if a = sep then [] :: r
    else
      match r with
      | [] => [[a]]
      | g :: gs => (a :: g) :: gs

/-- Structural model of `strings.Contains` for a one-character needle. -/
def hasCharL (c : Char) : List Char → Bool
  | [] => false
  | a :: as => a = c || hasCharL c as

/-- Structural model of `strings.HasPrefix` on character lists. -/
def leadsWithL : List Char → List Char → Bool
  | [], _ => true
  | _ :: _, [] => false
  | p :: ps, c :: cs => p = c && leadsWithL ps cs

/-- `extractPCIAddress`: split the resolved device path on `/` and scan the
components from the tail for the first one containing both `:` and `.`. -/
def extractPCIAddress (devicePath : String) : String :=
  let parts := (splitOnChar '/' devicePath.data).reverse
  match parts.find? (fun p => hasCharL ':' p && hasCharL '.' p) with
  | some p => String.mk p
  | none => ""

/-- `extractPCIFromUevent`: the value of the first `PCI_SLOT_NAME=` line
(`SplitN(line, "=", 2)[1]` is everything after the first `=`, which for a
line with this prefix is the suffix after the 14-byte prefix). -/
def extractPCIFromUevent (lines : List String) : Except String String :=
  match lines.find? (fun l => leadsWithL "PCI_SLOT_NAME=".data l.data) with
  | some l => .ok (String.mk (l.data.drop 14))
  | none => .error "PCI_SLOT_NAME not found in uevent file"

structure SysFs where
  classNetExists : String → Bool
  deviceSymlink : String → Option String
  ueventLines : String → Option (List String)

/-- `findVFPciAddress` (current revision, keyed by the VF's own
`/sys/class/net` entry): stat the entry, resolve the `device` symlink, scan
its components from the tail, and fall back to the uevent file. -/
def findVFPciAddress (fs : SysFs) (parentIfName vfName : String) : Except String String :=
  if fs.classNetExists vfName = false then
    .error ("VF " ++ vfName ++ " not exist")
  else
    match fs.deviceSymlink vfName with
    | none => .error "unable to resolve device symbolic link"
    | some deviceSymlinkPath =>
      let pciAddr := extractPCIAddress deviceSymlinkPath
      let fromUevent : Except String String :=
        if pciAddr = "" then
          match fs.ueventLines vfName with
          | none => .error "unable to extract PCI address from uevent file"
          | some lines =>
            match extractPCIFromUevent lines with
            | .error e => .error ("unable to extract PCI address from uevent file: " ++ e)
            | .ok a => .ok a
        else .ok pciAddr
      match fromUevent with
      | .error e => .error e
      | .ok a =>
        if a = "" then
          .error ("unable to determine PCI address for network interface " ++ vfName)
        else .ok a

/-- C4 counterexample: the symlink-scan result is returned exactly as found
in the path — there is no `0000:` domain normalization in this revision.  A
resolved path whose matching tail segment is `01:00.0` is returned bare. -/
theorem findVFPciAddress_no_normalization_counterexample :
    findVFPciAddress
      { classNetExists := fun s => s = "eno1v0",
        deviceSymlink := fun s => if s = "eno1v0" then some "/sys/devices/platform/01:00.0" else none,
        ueventLines := fun _ => none }
      "eno1" "eno1v0" = .ok "01:00.0" ∧
    ("01:00.0" : String) ≠ "0000:01:00.0" ∧
    leadsWithL "0000:".data "01:00.0".data = false :=
  ⟨by rfl, by decide, by decide⟩

/-- C4 amended: for a VF whose `/sys/class/net` entry exists, the resolver
resolves the `device` symlink, scans the resolved path's components from the
tail for a segment containing both `:` and `.`, and when one is found returns
it exactly as found (no `0000:` prefix is added); when the scan yields
nothing it returns the `PCI_SLOT_NAME` value of the device's uevent file; it
fails when the entry is missing, the symlink cannot be resolved, or neither
method yields a non-empty address. -/
theorem findVFPciAddress_amended (fs : SysFs) (parent vf : String) :
    (fs.classNetExists vf = false →
      findVFPciAddress fs parent vf = .error ("VF " ++ vf ++ " not exist")) ∧
    (fs.classNetExists vf = true → fs.deviceSymlink vf = none →
      findVFPciAddress fs parent vf = .error "unable to resolve device symbolic link") ∧
    (∀ p, fs.classNetExists vf = true → fs.deviceSymlink vf = some p →
      extractPCIAddress p ≠ "" →
      findVFPciAddress fs parent vf = .ok (extractPCIAddress p)) ∧
    (∀ p lines v, fs.classNetExists vf = true → fs.deviceSymlink vf = some p →
      extractPCIAddress p = "" → fs.ueventLines vf = some lines →
      extractPCIFromUevent lines = .ok v → v ≠ "" →
      findVFPciAddress fs parent vf = .ok v) ∧
    (∀ p, fs.classNetExists vf = true → fs.deviceSymlink vf = some p →
      extractPCIAddress p = "" → fs.ueventLines vf = none →
      findVFPciAddress fs parent vf =
        .error "unable to extract PCI address from uevent file") := by
  refine ⟨fun h0 => ?_, fun h0 h1 => ?_, fun p h0 h1 h2 => ?_,
    fun p lines v h0 h1 h2 h3 h4 h5 => ?_, fun p h0 h1 h2 h3 => ?_⟩ <;>
    simp [findVFPciAddress, h0] <;>
    simp_all [findVFPciAddress]

/-- Witness for the amended C4 statement: the uevent fallback on a concrete
filesystem whose device path has no PCI-looking segment. -/
theorem findVFPciAddress_amended_witness :
    findVFPciAddress
      { classNetExists := fun s => s = "eno1v0",
        deviceSymlink := fun s => if s = "eno1v0" then some "/sys/devices/virtual" else none,
        ueventLines := fun s =>
          if s = "eno1v0" then some ["DRIVER=iavf", "PCI_SLOT_NAME=0000:3b:02.1"] else none }
      "eno1" "eno1v0" = .ok "0000:3b:02.1" :=
  (findVFPciAddress_amended _ "eno1" "eno1v0").2.2.2.1 "/sys/devices/virtual"
    ["DRIVER=iavf", "PCI_SLOT_NAME=0000:3b:02.1"] "0000:3b:02.1"
    (by decide) (by rfl) (by rfl) (by rfl) (by rfl) (by decide)

/-! ## Container listing, apply-time collision check (`createTRExContainer`)
and delete (`deleteTRExContainer`)

`dockerClient.ContainerList` is an explicit outcome (`none` models a listing
error).  Docker reports every container with a list of names, each carrying
a leading `/`. -/

/-- Structural model of `strings.Contains`: does `pat` occur inside `s`? -/
def hasSubL (pat : List Char) : List Char → Bool
  | [] => pat.isEmpty
  | c :: cs => leadsWithL pat (c :: cs) || hasSubL pat cs

def strContainsSub (s pat : String) : Bool :=
  hasSubL pat.data s.data

structure ContainerSummary where
  id : String
  names : List String
  deriving DecidableEq, Repr

/-- The collision scan of `createTRExContainer`: any listed container one of
whose names contains the workload name as a substring. -/
def nameCollision (cs : List ContainerSummary) (name : String) : Bool :=
  cs.any (fun c => c.names.any (fun cname => strContainsSub cname name))

/-- `createTRExContainer` up to the hand-off to `CreateTRExContainer` (whose
outcome is the abstract `deploy` parameter): validate, list all containers,
refuse on a name collision. -/
def createTRExContainerGate (config : TRExConfig)
    (listRes : Option (List ContainerSummary))
    (deploy : Except String String) : Except String String :=
  match LoadConfig config with
  | .error e => .error ("failed to load config: " ++ e)
  | .ok _loaded =>
    match listRes with
    | none => .error "failed to list containers"
    | some cs =>
      if nameCollision cs config.metadata.name then
        .error ("container with name " ++ config.metadata.name ++ " already exists")
      else
        match deploy with
        | .error e => .error ("failed to create TREx container: " ++ e)
        | .ok workloadId =>
          .ok ("Container " ++ config.metadata.name ++ " created and started with ID: " ++ workloadId)

/-- C9: apply refuses with the "already exists" error whenever the workload
name occurs as a substring of any existing container's name — the check is
`strings.Contains`, not an exact match against `<name>` or `<name>-pause`. -/
theorem createTRExContainer_substring_collision (config : TRExConfig)
    (cs : List ContainerSummary) (deploy : Except String String)
    (hvalid : okB (LoadConfig config) = true)
    (hcol : ∃ c ∈ cs, ∃ cname ∈ c.names, strContainsSub cname config.metadata.name = true) :
    createTRExContainerGate config (some cs) deploy =
      .error ("container with name " ++ config.metadata.name ++ " already exists") := by
  have hc : nameCollision cs config.metadata.name = true := by
    obtain ⟨c, hcmem, cname, hnmem, hsub⟩ := hcol
    simp only [nameCollision, List.any_eq_true]
    exact ⟨c, hcmem, cname, hnmem, hsub⟩
  unfold createTRExContainerGate
  rcases h : LoadConfig config with e | loaded
  · simp [okB, h] at hvalid
  · simp [hc]

/-- Witness for C9: an existing container named `/t10` blocks a fresh apply
of the workload `t1`, although neither `/t1` nor `/t1-pause` exists. -/
theorem createTRExContainer_substring_collision_witness :
    createTRExContainerGate cfgMinimal (some [{ id := "aaa111", names := ["/t10"] }]) (.ok "id") =
      .error ("container with name " ++ "t1" ++ " already exists") ∧
    ("/t10" : String) ≠ "/t1" ∧ ("/t10" : String) ≠ "/t1-pause" :=
  ⟨createTRExContainer_substring_collision cfgMinimal [{ id := "aaa111", names := ["/t10"] }]
      (.ok "id") (by rfl)
      ⟨{ id := "aaa111", names := ["/t10"] }, by simp, "/t10", by simp, by rfl⟩,
   by decide, by decide⟩

/-! ### Delete (`deleteTRExContainer`)

The world effects are recorded as a trace of engine/netlink actions so that
"attempts no removal and no veth deletion" is a statement about the code. -/

inductive DeleteAction where
  | stopContainer (id : String)
  | removeContainer (id : String)
  | deleteLink (name : String)
  deriving DecidableEq, Repr

structure DeleteEnv where
  listRes : Option (List ContainerSummary)
  stopOk : Bool
  removeWorkerOk : Bool
  removePauseOk : Bool
  vethFound : Bool
  vethDelOk : Bool

/-- Go's scan keeps overwriting on every exact (`strings.Compare == 0`)
match, so the last listed match wins. -/
def findByExactName (cs : List ContainerSummary) (target : String) : String :=
  cs.foldl (fun acc c => c.names.foldl (fun a cname => if cname = target then c.id else a) acc) ""

/-- `deleteTRExContainer`: list, locate `/<name>` and `/<name>-pause` by
exact match, stop and force-remove the worker, force-remove the pause, then
delete the host veth named by `getPairName`.  A listing failure returns
`("", nil)`; stop and veth failures are logged only. -/
def deleteTRExContainer (config : TRExConfig) (env : DeleteEnv) :
    Except String String × List DeleteAction :=
  let name := config.metadata.name
  let pauseName := "/" ++ name ++ "-pause"
  let workName := "/" ++ name
  match env.listRes with
  | none => (.ok "", [])
  | some cs =>
    let containerID := findByExactName cs workName
    let pauseID := findByExactName cs pauseName
    if containerID = "" then (.ok ("Container " ++ name ++ " not exist"), [])
    else if pauseID = "" then (.ok ("Container " ++ pauseName ++ " not exist"), [])
    else
      -- stop errors are only logged
      let tr0 := [DeleteAction.stopContainer containerID]
      if env.removeWorkerOk = false then
        (.error "failed to remove container", tr0 ++ [.removeContainer containerID])
      else
        let tr1 := tr0 ++ [DeleteAction.removeContainer containerID]
        if env.removePauseOk = false then
          (.error "failed to remove container", tr1 ++ [.removeContainer pauseID])
        else
          let tr2 := tr1 ++ [DeleteAction.removeContainer pauseID]
          let vethHost := (getPairName name pauseID).1
          -- LinkByName / LinkDel failures are only logged
          let tr3 := if env.vethFound then tr2 ++ [DeleteAction.deleteLink vethHost] else tr2
          (.ok ("Container " ++ name ++ " deleted"), tr3)

/-- The HTTP layer (`handleRequest`): a nil error is 200 with the returned
status string, a non-nil error is 500. -/
def httpStatus {α : Type} : Except String α → Nat
  | .ok _ => 200
  | .error _ => 500

/-- C10: when the engine's container-list call fails at the start of delete,
`deleteTRExContainer` returns `("", nil)` — so the HTTP layer answers 200
with an empty body — and performs no stop, no removal and no link deletion. -/
theorem deleteTRExContainer_list_failure (config : TRExConfig) (env : DeleteEnv)
    (h : env.listRes = none) :
    deleteTRExContainer config env = (.ok "", []) ∧
    httpStatus (deleteTRExContainer config env).1 = 200 := by
  refine ⟨?_, ?_⟩ <;> simp [deleteTRExContainer, h, httpStatus]

/-- Witness for C10 at a concrete delete environment. -/
theorem deleteTRExContainer_list_failure_witness :
    deleteTRExContainer cfgMinimal
        { listRes := none, stopOk := true, removeWorkerOk := true,
          removePauseOk := true, vethFound := true, vethDelOk := true } = (.ok "", []) :=
  (deleteTRExContainer_list_failure cfgMinimal _ rfl).1

/-! ## The apply transaction and its compensation
(`CreateTRExContainer` + `cleanupOnError`, `main.go`)

The host is a `World` of per-workload artifacts; every external call's
outcome is a field of `ApplyEnv`.  Two source details matter for the claim:
`createAndStartPauseContainer` and `createWorkerContainer` return an empty ID
whenever the container was created but a later step inside them failed, so
`deploymentState` never records those containers; and
`state.networkConfigured` is set only after the whole of
`configurePauseContainerNetwork` succeeded. -/

structure World where
  bridge : Bool
  pause : Bool
  worker : Bool
  hostVeth : Bool
  deriving DecidableEq, Repr

structure ApplyEnv where
  pauseImageOk : Bool
  trexImageOk : Bool
  bridgeAddOk : Bool
  bridgeUpOk : Bool
  pauseCreateOk : Bool
  pauseStartOk : Bool
  pausePidOk : Bool
  vethAddOk : Bool
  setMasterOk : Bool
  hostSetUpOk : Bool
  setNsOk : Bool
  vfConfigOk : Bool
  nsActionOk : Bool
  cfgFileOk : Bool
  workerCreateOk : Bool
  workerStartOk : Bool
  deriving DecidableEq, Repr

/-- `deploymentState`: which IDs/flags the reconciler recorded (`true` models
a non-empty container ID). -/
structure DeployState where
  pauseId : Bool
  netCfg : Bool
  workerId : Bool
  deriving DecidableEq, Repr

/-- `cleanupOnError`: force-remove the worker if its ID was recorded, delete
the host veth (found by its deterministic name) if the network step was
recorded, force-remove the pause if its ID was recorded.  The bridge is never
touched. -/
def cleanupOnError (st : DeployState) (w : World) : World :=
  let w1 := if st.workerId then { w with worker := false } else w
  let w2 := if st.netCfg then { w1 with hostVeth := false } else w1
  if st.pauseId then { w2 with pause := false } else w2

/-- The straight-line body of `CreateTRExContainer` with every external
outcome as an explicit `Bool` and the tracked world written out at each step
(`⟨bridge, pause, worker, hostVeth⟩`, starting from `⟨b0, p0, q0, v0⟩`): the
bridge is ensured, the pause container is created then started then
PID-validated (its ID is recorded only when all three succeeded), the veth
pair is created after deleting residues (host end exists from then on),
attached, brought up, moved, VF-configured when SRIOV, the netns action runs
(`networkConfigured` recorded only after all of these), the config file is
written and the worker is created then started (its ID recorded only when
both succeeded).  Every error exit applies the `defer`red `cleanupOnError`
with the deployment state recorded so far. -/
def applyGo (sriov pimg timg badd bup pcre psta ppid vadd smas hup snsf vfc nsa cfg wcre wsta : Bool)
    (b0 p0 q0 v0 : Bool) : World × Except String String :=
  if pimg = false then
    (cleanupOnError ⟨false, false, false⟩ ⟨b0, p0, q0, v0⟩, .error "failed to ensure pause image exists")
  else if timg = false then
    (cleanupOnError ⟨false, false, false⟩ ⟨b0, p0, q0, v0⟩, .error "failed to ensure TREx image exists")
  else if badd = false then
    (cleanupOnError ⟨false, false, false⟩ ⟨b0, p0, q0, v0⟩, .error "failed to ensure bridge")
  else if bup = false then
    (cleanupOnError ⟨false, false, false⟩ ⟨true, p0, q0, v0⟩, .error "failed to ensure bridge")
  else if pcre = false then
    (cleanupOnError ⟨false, false, false⟩ ⟨true, p0, q0, v0⟩, .error "failed to create pause container")
  else if psta = false then
    (cleanupOnError ⟨false, false, false⟩ ⟨true, true, q0, v0⟩, .error "failed to create pause container")
  else if ppid = false then
    (cleanupOnError ⟨false, false, false⟩ ⟨true, true, q0, v0⟩, .error "failed to create pause container")
  else if vadd = false then
    (cleanupOnError ⟨true, false, false⟩ ⟨true, true, q0, false⟩, .error "failed to create veth pair")
  else if smas = false then
    (cleanupOnError ⟨true, false, false⟩ ⟨true, true, q0, true⟩, .error "failed to connect veth to bridge")
  else if hup = false then
    (cleanupOnError ⟨true, false, false⟩ ⟨true, true, q0, true⟩, .error "failed to set host veth up")
  else if snsf = false then
    (cleanupOnError ⟨true, false, false⟩ ⟨true, true, q0, true⟩, .error "failed to move veth to container")
  else if sriov = true ∧ vfc = false then
    (cleanupOnError ⟨true, false, false⟩ ⟨true, true, q0, true⟩, .error "failed to configure VF network")
  else if nsa = false then
    (cleanupOnError ⟨true, false, false⟩ ⟨true, true, q0, true⟩, .error "failed to configure pause container network")
  else if cfg = false then
    (cleanupOnError ⟨true, true, false⟩ ⟨true, true, q0, true⟩, .error "failed to create VF config file")
  else if wcre = false then
    (cleanupOnError ⟨true, true, false⟩ ⟨true, true, q0, true⟩, .error "failed to create worker container")
  else if wsta = false then
    (cleanupOnError ⟨true, true, false⟩ ⟨true, true, true, true⟩, .error "failed to create worker container")
  else (⟨true, true, true, true⟩, .ok "worker started")

/-- `CreateTRExContainer` over the outcome record and world. -/
def applyRun (sriov : Bool) (e : ApplyEnv) (w0 : World) : World × Except String String :=
  applyGo sriov e.pauseImageOk e.trexImageOk e.bridgeAddOk e.bridgeUpOk
    e.pauseCreateOk e.pauseStartOk e.pausePidOk e.vethAddOk e.setMasterOk
    e.hostSetUpOk e.setNsOk e.vfConfigOk e.nsActionOk e.cfgFileOk
    e.workerCreateOk e.workerStartOk w0.bridge w0.pause w0.worker w0.hostVeth

theorem applyGo_bridge_monotone (sriov pimg timg badd bup pcre psta ppid vadd smas hup snsf vfc nsa cfg wcre wsta : Bool)
    (p0 q0 v0 : Bool) :
    (applyGo sriov pimg timg badd bup pcre psta ppid vadd smas hup snsf vfc nsa cfg wcre wsta true p0 q0 v0).1.bridge = true := by
  cases pimg with
  | false => simp_all [applyGo, cleanupOnError, okB]
  | true =>
    cases timg with
    | false => simp_all [applyGo, cleanupOnError, okB]
    | true =>
      cases badd with
      | false => simp_all [applyGo, cleanupOnError, okB]
      | true =>
        cases bup with
        | false => simp_all [applyGo, cleanupOnError, okB]
        | true =>
          cases pcre with
          | false => simp_all [applyGo, cleanupOnError, okB]
          | true =>
            cases psta with
            | false => simp_all [applyGo, cleanupOnError, okB]
            | true =>
              cases ppid with
              | false => simp_all [applyGo, cleanupOnError, okB]
              | true =>
                cases vadd with
                | false => simp_all [applyGo, cleanupOnError, okB]
                | true =>
                  cases smas with
                  | false => simp_all [applyGo, cleanupOnError, okB]
                  | true =>
                    cases hup with
                    | false => simp_all [applyGo, cleanupOnError, okB]
                    | true =>
                      cases snsf with
                      | false => simp_all [applyGo, cleanupOnError, okB]
                      | true =>
                        cases sriov with
                        | false =>
                          cases nsa with
                          | false => simp_all [applyGo, cleanupOnError, okB]
                          | true =>
                            cases cfg with
                            | false => simp_all [applyGo, cleanupOnError, okB]
                            | true =>
                              cases wcre with
                              | false => simp_all [applyGo, cleanupOnError, okB]
                              | true =>
                                cases wsta with
                                | false => simp_all [applyGo, cleanupOnError, okB]
                                | true =>
                                  simp_all [applyGo, cleanupOnError, okB]
                        | true =>
                          cases vfc with
                          | false => simp_all [applyGo, cleanupOnError, okB]
                          | true =>
                            cases nsa with
                            | false => simp_all [applyGo, cleanupOnError, okB]
                            | true =>
                              cases cfg with
                              | false => simp_all [applyGo, cleanupOnError, okB]
                              | true =>
                                cases wcre with
                                | false => simp_all [applyGo, cleanupOnError, okB]
                                | true =>
                                  cases wsta with
                                  | false => simp_all [applyGo, cleanupOnError, okB]
                                  | true =>
                                    simp_all [applyGo, cleanupOnError, okB]

theorem applyGo_worker_eq (sriov pimg timg badd bup pcre psta ppid vadd smas hup snsf vfc nsa cfg wcre wsta b0 : Bool)
    (hc : wcre = true → wsta = true) :
    (applyGo sriov pimg timg badd bup pcre psta ppid vadd smas hup snsf vfc nsa cfg wcre wsta b0 false false false).1.worker =
    okB (applyGo sriov pimg timg badd bup pcre psta ppid vadd smas hup snsf vfc nsa cfg wcre wsta b0 false false false).2 := by
  cases pimg with
  | false => simp_all [applyGo, cleanupOnError, okB]
  | true =>
    cases timg with
    | false => simp_all [applyGo, cleanupOnError, okB]
    | true =>
      cases badd with
      | false => simp_all [applyGo, cleanupOnError, okB]
      | true =>
        cases bup with
        | false => simp_all [applyGo, cleanupOnError, okB]
        | true =>
          cases pcre with
          | false => simp_all [applyGo, cleanupOnError, okB]
          | true =>
            cases psta with
            | false => simp_all [applyGo, cleanupOnError, okB]
            | true =>
              cases ppid with
              | false => simp_all [applyGo, cleanupOnError, okB]
              | true =>
                cases vadd with
                | false => simp_all [applyGo, cleanupOnError, okB]
                | true =>
                  cases smas with
                  | false => simp_all [applyGo, cleanupOnError, okB]
                  | true =>
                    cases hup with
                    | false => simp_all [applyGo, cleanupOnError, okB]
                    | true =>
                      cases snsf with
                      | false => simp_all [applyGo, cleanupOnError, okB]
                      | true =>
                        cases sriov with
                        | false =>
                          cases nsa with
                          | false => simp_all [applyGo, cleanupOnError, okB]
                          | true =>
                            cases cfg with
                            | false => simp_all [applyGo, cleanupOnError, okB]
                            | true =>
                              cases wcre with
                              | false => simp_all [applyGo, cleanupOnError, okB]
                              | true =>
                                cases wsta with
                                | false => simp_all [applyGo, cleanupOnError, okB]
                                | true =>
                                  simp_all [applyGo, cleanupOnError, okB]
                        | true =>
                          cases vfc with
                          | false => simp_all [applyGo, cleanupOnError, okB]
                          | true =>
                            cases nsa with
                            | false => simp_all [applyGo, cleanupOnError, okB]
                            | true =>
                              cases cfg with
                              | false => simp_all [applyGo, cleanupOnError, okB]
                              | true =>
                                cases wcre with
                                | false => simp_all [applyGo, cleanupOnError, okB]
                                | true =>
                                  cases wsta with
                                  | false => simp_all [applyGo, cleanupOnError, okB]
                                  | true =>
                                    simp_all [applyGo, cleanupOnError, okB]

theorem applyGo_pause_eq (sriov pimg timg badd bup pcre psta ppid vadd smas hup snsf vfc nsa cfg wcre wsta b0 : Bool)
    (hc : pcre = true → psta = true ∧ ppid = true) :
    (applyGo sriov pimg timg badd bup pcre psta ppid vadd smas hup snsf vfc nsa cfg wcre wsta b0 false false false).1.pause =
    okB (applyGo sriov pimg timg badd bup pcre psta ppid vadd smas hup snsf vfc nsa cfg wcre wsta b0 false false false).2 := by
  cases pimg with
  | false => simp_all [applyGo, cleanupOnError, okB]
  | true =>
    cases timg with
    | false => simp_all [applyGo, cleanupOnError, okB]
    | true =>
      cases badd with
      | false => simp_all [applyGo, cleanupOnError, okB]
      | true =>
        cases bup with
        | false => simp_all [applyGo, cleanupOnError, okB]
        | true =>
          cases pcre with
          | false => simp_all [applyGo, cleanupOnError, okB]
          | true =>
            cases psta with
            | false => simp_all [applyGo, cleanupOnError, okB]
            | true =>
              cases ppid with
              | false => simp_all [applyGo, cleanupOnError, okB]
              | true =>
                cases vadd with
                | false => simp_all [applyGo, cleanupOnError, okB]
                | true =>
                  cases smas with
                  | false => simp_all [applyGo, cleanupOnError, okB]
                  | true =>
                    cases hup with
                    | false => simp_all [applyGo, cleanupOnError, okB]
                    | true =>
                      cases snsf with
                      | false => simp_all [applyGo, cleanupOnError, okB]
                      | true =>
                        cases sriov with
                        | false =>
                          cases nsa with
                          | false => simp_all [applyGo, cleanupOnError, okB]
                          | true =>
                            cases cfg with
                            | false => simp_all [applyGo, cleanupOnError, okB]
                            | true =>
                              cases wcre with
                              | false => simp_all [applyGo, cleanupOnError, okB]
                              | true =>
                                cases wsta with
                                | false => simp_all [applyGo, cleanupOnError, okB]
                                | true =>
                                  simp_all [applyGo, cleanupOnError, okB]
                        | true =>
                          cases vfc with
                          | false => simp_all [applyGo, cleanupOnError, okB]
                          | true =>
                            cases nsa with
                            | false => simp_all [applyGo, cleanupOnError, okB]
                            | true =>
                              cases cfg with
                              | false => simp_all [applyGo, cleanupOnError, okB]
                              | true =>
                                cases wcre with
                                | false => simp_all [applyGo, cleanupOnError, okB]
                                | true =>
                                  cases wsta with
                                  | false => simp_all [applyGo, cleanupOnError, okB]
                                  | true =>
                                    simp_all [applyGo, cleanupOnError, okB]

theorem applyGo_hostVeth_eq (sriov pimg timg badd bup pcre psta ppid vadd smas hup snsf vfc nsa cfg wcre wsta b0 : Bool)
    (hc : vadd = true → smas = true ∧ hup = true ∧ snsf = true ∧ (sriov = true → vfc = true) ∧ nsa = true) :
    (applyGo sriov pimg timg badd bup pcre psta ppid vadd smas hup snsf vfc nsa cfg wcre wsta b0 false false false).1.hostVeth =
    okB (applyGo sriov pimg timg badd bup pcre psta ppid vadd smas hup snsf vfc nsa cfg wcre wsta b0 false false false).2 := by
  cases pimg with
  | false => simp_all [applyGo, cleanupOnError, okB]
  | true =>
    cases timg with
    | false => simp_all [applyGo, cleanupOnError, okB]
    | true =>
      cases badd with
      | false => simp_all [applyGo, cleanupOnError, okB]
      | true =>
        cases bup with
        | false => simp_all [applyGo, cleanupOnError, okB]
        | true =>
          cases pcre with
          | false => simp_all [applyGo, cleanupOnError, okB]
          | true =>
            cases psta with
            | false => simp_all [applyGo, cleanupOnError, okB]
            | true =>
              cases ppid with
              | false => simp_all [applyGo, cleanupOnError, okB]
              | true =>
                cases vadd with
                | false => simp_all [applyGo, cleanupOnError, okB]
                | true =>
                  cases smas with
                  | false => simp_all [applyGo, cleanupOnError, okB]
                  | true =>
                    cases hup with
                    | false => simp_all [applyGo, cleanupOnError, okB]
                    | true =>
                      cases snsf with
                      | false => simp_all [applyGo, cleanupOnError, okB]
                      | true =>
                        cases sriov with
                        | false =>
                          cases nsa with
                          | false => simp_all [applyGo, cleanupOnError, okB]
                          | true =>
                            cases cfg with
                            | false => simp_all [applyGo, cleanupOnError, okB]
                            | true =>
                              cases wcre with
                              | false => simp_all [applyGo, cleanupOnError, okB]
                              | true =>
                                cases wsta with
                                | false => simp_all [applyGo, cleanupOnError, okB]
                                | true =>
                                  simp_all [applyGo, cleanupOnError, okB]
                        | true =>
                          cases vfc with
                          | false => simp_all [applyGo, cleanupOnError, okB]
                          | true =>
                            cases nsa with
                            | false => simp_all [applyGo, cleanupOnError, okB]
                            | true =>
                              cases cfg with
                              | false => simp_all [applyGo, cleanupOnError, okB]
                              | true =>
                                cases wcre with
                                | false => simp_all [applyGo, cleanupOnError, okB]
                                | true =>
                                  cases wsta with
                                  | false => simp_all [applyGo, cleanupOnError, okB]
                                  | true =>
                                    simp_all [applyGo, cleanupOnError, okB]

/-- The all-success environment, used to build failing runs by flipping one
outcome. -/
def allOkEnv : ApplyEnv :=
  { pauseImageOk := true, trexImageOk := true, bridgeAddOk := true, bridgeUpOk := true,
    pauseCreateOk := true, pauseStartOk := true, pausePidOk := true,
    vethAddOk := true, setMasterOk := true, hostSetUpOk := true, setNsOk := true,
    vfConfigOk := true, nsActionOk := true, cfgFileOk := true,
    workerCreateOk := true, workerStartOk := true }

def emptyWorld : World := { bridge := false, pause := false, worker := false, hostVeth := false }

/-- C2 counterexample: three failing applies whose compensation leaks an
artifact.  (a) the pause container is created but fails to start: its ID is
never recorded and the pause container remains; (b) attaching the veth to the
bridge fails after the pair was created: `networkConfigured` is still false
and the host veth remains; (c) the worker container is created but fails to
start: its ID is never recorded and the worker container remains. -/
theorem cleanupOnError_incomplete_counterexample :
    (okB (applyRun true { allOkEnv with pauseStartOk := false } emptyWorld).2 = false ∧
      (applyRun true { allOkEnv with pauseStartOk := false } emptyWorld).1.pause = true) ∧
    (okB (applyRun true { allOkEnv with setMasterOk := false } emptyWorld).2 = false ∧
      (applyRun true { allOkEnv with setMasterOk := false } emptyWorld).1.hostVeth = true) ∧
    (okB (applyRun true { allOkEnv with workerStartOk := false } emptyWorld).2 = false ∧
      (applyRun true { allOkEnv with workerStartOk := false } emptyWorld).1.worker = true) := by
  decide

theorem applyRun_bridge_monotone (sriov : Bool) (e : ApplyEnv) (w0 : World)
    (hb : w0.bridge = true) : (applyRun sriov e w0).1.bridge = true := by
  obtain ⟨e1, e2, e3, e4, e5, e6, e7, e8, e9, e10, e11, e12, e13, e14, e15, e16⟩ := e
  obtain ⟨b0, p0, q0, v0⟩ := w0
  dsimp only at hb
  subst hb
  dsimp only [applyRun]
  exact applyGo_bridge_monotone sriov e1 e2 e3 e4 e5 e6 e7 e8 e9 e10 e11 e12 e13 e14 e15 e16 p0 q0 v0

theorem applyRun_worker_eq (sriov : Bool) (e : ApplyEnv) (w0 : World)
    (hp : w0.pause = false) (hw : w0.worker = false) (hv : w0.hostVeth = false)
    (hc : e.workerCreateOk = true → e.workerStartOk = true) :
    (applyRun sriov e w0).1.worker = okB (applyRun sriov e w0).2 := by
  obtain ⟨e1, e2, e3, e4, e5, e6, e7, e8, e9, e10, e11, e12, e13, e14, e15, e16⟩ := e
  obtain ⟨b0, p0, q0, v0⟩ := w0
  dsimp only at hp hw hv hc
  subst hp; subst hw; subst hv
  dsimp only [applyRun]
  exact applyGo_worker_eq sriov e1 e2 e3 e4 e5 e6 e7 e8 e9 e10 e11 e12 e13 e14 e15 e16 b0 hc

theorem applyRun_pause_eq (sriov : Bool) (e : ApplyEnv) (w0 : World)
    (hp : w0.pause = false) (hw : w0.worker = false) (hv : w0.hostVeth = false)
    (hc : e.pauseCreateOk = true → e.pauseStartOk = true ∧ e.pausePidOk = true) :
    (applyRun sriov e w0).1.pause = okB (applyRun sriov e w0).2 := by
  obtain ⟨e1, e2, e3, e4, e5, e6, e7, e8, e9, e10, e11, e12, e13, e14, e15, e16⟩ := e
  obtain ⟨b0, p0, q0, v0⟩ := w0
  dsimp only at hp hw hv hc
  subst hp; subst hw; subst hv
  dsimp only [applyRun]
  exact applyGo_pause_eq sriov e1 e2 e3 e4 e5 e6 e7 e8 e9 e10 e11 e12 e13 e14 e15 e16 b0 hc

theorem applyRun_hostVeth_eq (sriov : Bool) (e : ApplyEnv) (w0 : World)
    (hp : w0.pause = false) (hw : w0.worker = false) (hv : w0.hostVeth = false)
    (hc : e.vethAddOk = true →
      e.setMasterOk = true ∧ e.hostSetUpOk = true ∧ e.setNsOk = true ∧
      (sriov = true → e.vfConfigOk = true) ∧ e.nsActionOk = true) :
    (applyRun sriov e w0).1.hostVeth = okB (applyRun sriov e w0).2 := by
  obtain ⟨e1, e2, e3, e4, e5, e6, e7, e8, e9, e10, e11, e12, e13, e14, e15, e16⟩ := e
  obtain ⟨b0, p0, q0, v0⟩ := w0
  dsimp only at hp hw hv hc
  subst hp; subst hw; subst hv
  dsimp only [applyRun]
  exact applyGo_hostVeth_eq sriov e1 e2 e3 e4 e5 e6 e7 e8 e9 e10 e11 e12 e13 e14 e15 e16 b0 hc

/-- C2 amended: after any failing apply that starts with no artifacts for the
workload, (a) no worker container remains unless the worker was created and
then failed to start; (b) no pause container remains unless the pause was
created and then failed to start or to yield a live PID; (c) the host veth
does not remain unless the pair was created and a later plumbing step failed
before the network step completed; (d) the bridge is never removed. -/
theorem cleanupOnError_guarantees (sriov : Bool) (e : ApplyEnv) (w0 : World)
    (hp : w0.pause = false) (hw : w0.worker = false) (hv : w0.hostVeth = false)
    (hfail : okB (applyRun sriov e w0).2 = false) :
    (w0.bridge = true → (applyRun sriov e w0).1.bridge = true) ∧
    ((e.workerCreateOk = true → e.workerStartOk = true) →
      (applyRun sriov e w0).1.worker = false) ∧
    ((e.pauseCreateOk = true → e.pauseStartOk = true ∧ e.pausePidOk = true) →
      (applyRun sriov e w0).1.pause = false) ∧
    ((e.vethAddOk = true →
        e.setMasterOk = true ∧ e.hostSetUpOk = true ∧ e.setNsOk = true ∧
        (sriov = true → e.vfConfigOk = true) ∧ e.nsActionOk = true) →
      (applyRun sriov e w0).1.hostVeth = false) := by
  refine ⟨fun hb => applyRun_bridge_monotone sriov e w0 hb, fun hc => ?_, fun hc => ?_,
    fun hc => ?_⟩
  · rw [applyRun_worker_eq sriov e w0 hp hw hv hc]; exact hfail
  · rw [applyRun_pause_eq sriov e w0 hp hw hv hc]; exact hfail
  · rw [applyRun_hostVeth_eq sriov e w0 hp hw hv hc]; exact hfail

/-- Witness for the amended C2 statement: a failing apply (the TRex image
pull fails) leaves nothing behind and keeps a pre-existing bridge. -/
theorem cleanupOnError_guarantees_witness :
    ((applyRun true { allOkEnv with trexImageOk := false }
        { bridge := true, pause := false, worker := false, hostVeth := false }).1.bridge = true) ∧
    ((applyRun true { allOkEnv with trexImageOk := false }
        { bridge := true, pause := false, worker := false, hostVeth := false }).1.worker = false) ∧
    ((applyRun true { allOkEnv with trexImageOk := false }
        { bridge := true, pause := false, worker := false, hostVeth := false }).1.pause = false) ∧
    ((applyRun true { allOkEnv with trexImageOk := false }
        { bridge := true, pause := false, worker := false, hostVeth := false }).1.hostVeth = false) := by
  have h := cleanupOnError_guarantees true { allOkEnv with trexImageOk := false }
    { bridge := true, pause := false, worker := false, hostVeth := false }
    rfl rfl rfl (by decide)
  exact ⟨h.1 rfl, h.2.1 (fun _ => rfl), h.2.2.1 (fun _ => ⟨rfl, rfl⟩),
    h.2.2.2 (fun _ => ⟨rfl, rfl, rfl, fun _ => rfl, rfl⟩)⟩

/-! ## IPv4 values and the Go stdlib parsers the config writer calls

`net.ParseIP` / `net.ParseCIDR` are modelled for the dotted-quad IPv4 inputs
this program feeds them (other accepted spellings, e.g. IPv6, never occur
here).  All parsing runs on `List Char` so every definition reduces inside
the kernel. -/

structure IPv4 where
  a : Nat
  b : Nat
  c : Nat
  d : Nat
  deriving DecidableEq, Repr

def IPv4.render (ip : IPv4) : String :=
  toString ip.a ++ "." ++ toString ip.b ++ "." ++ toString ip.c ++ "." ++ toString ip.d

def digitVal (c : Char) : Option Nat :=
  if '0' ≤ c ∧ c ≤ '9' then some (c.toNat - '0'.toNat) else none

/-- One decimal field of a dotted quad: 1–3 digits, no leading zero, ≤ 255. -/
def parseIPv4Field (cs : List Char) : Option Nat :=
  match cs.mapM digitVal with
  | none => none
  | some ds =>
    if ds.length = 0 ∨ 3 < ds.length then none
    else if 1 < ds.length ∧ ds.headD 0 = 0 then none
    else
      let v := ds.foldl (fun acc d => acc * 10 + d) 0
      if v ≤ 255 then some v else none

def parseIPv4 (s : String) : Option IPv4 :=
  match (splitOnChar '.' s.data).mapM parseIPv4Field with
  | some [a, b, c, d] => some ⟨a, b, c, d⟩
  | _ => none

def maskByte (b bits : Nat) : Nat :=
  b / 2 ^ (8 - bits) * 2 ^ (8 - bits)

/-- Apply an `ones`-bit network mask, as `ip.Mask(mask)` does. -/
def maskIP (ip : IPv4) (ones : Nat) : IPv4 :=
  ⟨maskByte ip.a (min 8 ones), maskByte ip.b (min 8 (ones - 8)),
   maskByte ip.c (min 8 (ones - 16)), maskByte ip.d (min 8 (ones - 24))⟩

/-- `net.ParseCIDR` for `a.b.c.d/n`: the masked network address and the
prefix length. -/
def parseCIDR (s : String) : Option (IPv4 × Nat) :=
  match splitOnChar '/' s.data with
  | [ipCs, onesCs] =>
    match parseIPv4 (String.mk ipCs), (onesCs.mapM digitVal) with
    | some ip, some ds =>
      if ds.length = 0 ∨ 2 < ds.length then none
      else
        let n := ds.foldl (fun acc d => acc * 10 + d) 0
        if n ≤ 32 then some (maskIP ip n, n) else none
    | _, _ => none
  | _ => none

/-! ## `generateRandomIP` (`trex_config.go`)

The time-seeded PRNG is an explicit stream of draws (the successive
`rand.Uint32()` values); an exhausted stream models the loop not having
returned yet.  The exclude list holds the results of `net.ParseIP` on the
caller's strings (`none` models a non-IPv4 entry, whose `To4()` is nil). -/

inductive GenIP where
  | diverge
  | failMsg (msg : String)
  | okIP (ip : IPv4)
  deriving DecidableEq, Repr

/-- Go's per-byte `ipNet.IP[k] + byte(randomHost >> s)` with byte wraparound. -/
def ipAdd (base : IPv4) (h : Nat) : IPv4 :=
  ⟨(base.a + h / 16777216 % 256) % 256,
   (base.b + h / 65536 % 256) % 256,
   (base.c + h / 256 % 256) % 256,
   (base.d + h % 256) % 256⟩

/-- The exclusion loop.  An invalid entry aborts with an error; on an equal
entry the source says `continue`, which targets this inner `range` loop, so
the comparison has no effect and the loop falls through to `return ip`. -/
def checkExcludes (ip : IPv4) : List (Option IPv4) → Except String Unit
  | [] => .ok ()
  | none :: _ => .error "excludeIP is not a valid IPv4 address"
  | some e :: rest =>
    if ip = e then checkExcludes ip rest else checkExcludes ip rest

def generateRandomIPLoop (network : IPv4) (total : Nat) (exclude : List (Option IPv4)) :
    List Nat → GenIP
  | [] => .diverge
  | r :: rest =>
    let randomHost := r % total
    if randomHost = 0 ∨ randomHost = total - 1 then
      generateRandomIPLoop network total exclude rest
    else
      match checkExcludes (ipAdd network randomHost) exclude with
      | .error e => .failMsg e
      | .ok _ => .okIP (ipAdd network randomHost)

def generateRandomIP (cidr : String) (exclude : List (Option IPv4)) (draws : List Nat) : GenIP :=
  match parseCIDR cidr with
  | none => .failMsg "invalid CIDR address"
  | some (network, ones) =>
    let total := 2 ^ (32 - ones)
    if total ≤ 1 then .failMsg "network too small to generate random IP"
    else generateRandomIPLoop network total exclude draws

/-- C5: the `continue` in the exclusion loop targets the inner loop, so an
excluded address is returned unchanged.  With CIDR `192.168.0.0/24`, exclude
list `[192.168.0.5]` and random draw 5, `generateRandomIP` returns
`192.168.0.5`, which is in its own exclude list (it is also a valid host
address — neither network nor broadcast — so no skip applies). -/
theorem generateRandomIP_returns_excluded :
    generateRandomIP "192.168.0.0/24" [some ⟨192, 168, 0, 5⟩] [5] = .okIP ⟨192, 168, 0, 5⟩ ∧
    some (⟨192, 168, 0, 5⟩ : IPv4) ∈ [some (⟨192, 168, 0, 5⟩ : IPv4)] ∧
    (5 : Nat) ≠ 0 ∧ (5 : Nat) ≠ 255 :=
  ⟨by rfl, by decide, by decide, by decide⟩

/-! ## The TRex port configuration value (`createVFConfigFile`)

The claim is about the YAML value that is marshalled and written; the
filesystem and `yaml.Marshal` are external, so the embedding produces the
`TrexPortConfig` value.  `vfPCIMap` (a Go map keyed by unique VF names) is an
association list looked up by first match.  `draws i` is the PRNG stream the
`i`-th port's dummy-address generation consumes; `none` as overall result
models a non-terminating `generateRandomIP` loop. -/

structure PortInfoEntry where
  ip : String
  defaultGateway : String
  deriving DecidableEq, Repr

structure TrexPortConfig where
  portLimit : Nat
  version : Nat
  interfaces : List String
  portInfo : List PortInfoEntry
  deriving DecidableEq, Repr

def generateRandomIPWithGateway (i : Nat) : String × String :=
  ("192.168." ++ toString i ++ "." ++ toString (10 + i) ++ "/24",
   "192.168." ++ toString i ++ ".1")

def lookupPCI (m : List (String × String)) (k : String) : Option String :=
  (m.find? (fun e => e.1 = k)).map (·.2)

/-- The per-port loop body of `createVFConfigFile`: the `interfaces` and
`port_info` entries appended for each port, in order. -/
def portEntries (pName : String) (vfPCIMap : List (String × String))
    (draws : Nat → List Nat) :
    Nat → List Port → Option (Except String (List String × List PortInfoEntry))
  | _, [] => some (.ok ([], []))
  | i, port :: rest =>
    let vfName := pName ++ "v" ++ toString port.vfIndex
    match lookupPCI vfPCIMap vfName with
    | none => some (.error ("failed to find VF PCI address for " ++ vfName))
    | some pci =>
      let ipgw := if port.ip ≠ "" ∧ port.gateway ≠ "" then (port.ip, port.gateway)
        else generateRandomIPWithGateway i
      let tmpIP := String.mk ((splitOnChar '/' ipgw.1.data).headD [])
      let excludeIP := [parseIPv4 tmpIP, parseIPv4 ipgw.2]
      match generateRandomIP ipgw.1 excludeIP (draws i) with
      | .diverge => none
      | g =>
        -- the error from generateRandomIP is discarded (`dummyIP, _ := ...`);
        -- a nil net.IP renders as "<nil>"
        let dummyStr := match g with
          | .okIP dip => dip.render
          | _ => "<nil>"
        match portEntries pName vfPCIMap draws (i + 1) rest with
        | none => none
        | some (.error e) => some (.error e)
        | some (.ok (ifs, pis)) =>
          some (.ok (pci :: "dummy" :: ifs,
            { ip := ipgw.1, defaultGateway := ipgw.2 } ::
            { ip := dummyStr, defaultGateway := ipgw.2 } :: pis))

/-- `createVFConfigFile`'s `TrexPortConfig` value: the struct literal
initializes `Interfaces` and `PortInfo` with `make(..., len(vfPCIMap)*2)` —
that many zero values — and the loop then `append`s onto them. -/
def createVFConfigFile (vfPCIMap : List (String × String)) (config : TRExConfig)
    (draws : Nat → List Nat) : Option (Except String TrexPortConfig) :=
  let m2 := vfPCIMap.length * 2
  match portEntries config.spec.parentInterface vfPCIMap draws 0 config.spec.port with
  | none => none
  | some (.error e) => some (.error e)
  | some (.ok (ifs, pis)) =>
    some (.ok { portLimit := m2, version := 2,
                interfaces := List.replicate m2 "" ++ ifs,
                portInfo := List.replicate m2 { ip := "", defaultGateway := "" } ++ pis })

/-- A validated one-port SRIOV workload whose only VF is resolved. -/
def cfgOnePort : TRExConfig :=
  { kind := "TrexConfig", metadata := { name := "t1", image := "trex:v3" },
    spec := { brName := "trex-br0", mgmtIP := "10.0.0.5/24", mgmtGateway := "10.0.0.1",
              networkType := "SRIOV", parentInterface := "eno1",
              port := [{ ifName := "", vfIndex := 0, ip := "", gateway := "", vlanId := 100 }] } }

/-- C1: evaluating the builder on a validated one-port workload whose single
VF is resolved (`vfPCIMap = {eno1v0 ↦ 0000:01:00.0}`, so `n = 1`).  Because
the struct literal's `make` already fills `2·|vfPCIMap|` empty entries and
the loop appends after them, the value has `interfaces` and `port_info` of
length `4 ≠ 2n`, and `interfaces` starts with an empty string rather than
the first port's PCI address (`port_limit = 2` is the only conforming
field). -/
theorem createVFConfigFile_shape_bug :
    createVFConfigFile [("eno1v0", "0000:01:00.0")] cfgOnePort (fun _ => [2]) =
      some (.ok { portLimit := 2, version := 2,
                  interfaces := ["", "", "0000:01:00.0", "dummy"],
                  portInfo := [{ ip := "", defaultGateway := "" },
                               { ip := "", defaultGateway := "" },
                               { ip := "192.168.0.10/24", defaultGateway := "192.168.0.1" },
                               { ip := "192.168.0.2", defaultGateway := "192.168.0.1" }] }) ∧
    (["", "", "0000:01:00.0", "dummy"] : List String).length ≠ 2 * 1 ∧
    (["", "", "0000:01:00.0", "dummy"] : List String).headD "x" ≠ "0000:01:00.0" :=
  ⟨by rfl, by decide, by decide⟩

end Trex
